import Mathlib

/-!
Verification of `src/mock-endpoints.py` (CloudSync mock HTTP server).

The Python program is shallowly embedded below.  The handler methods
`do_POST` / `do_GET` of `MockEndpointHandler` become pure functions that
return the ordered list of observable events (console prints, the
`time.sleep(0.1)` call, `send_response` / `send_header` / `end_headers` /
`wfile.write` calls, or an exception escaping the method).  The standard
library calls the handler makes are modelled from their CPython sources:

* `json.loads` is modelled by `json_loads` below, following the pure-Python
  scanner (`json/scanner.py`, `json/decoder.py`): value dispatch order,
  whitespace handling, the `NUMBER_RE` regex, `py_scanstring`, and the
  `JSONDecodeError` messages `"Expecting value"`, `"Extra data"`,
  `"Expecting ',' delimiter"`, `"Expecting ':' delimiter"`,
  `"Expecting property name enclosed in double quotes"`,
  `"Unterminated string starting at"`, `"Invalid control character ... at"`,
  `"Invalid \\escape: ..."`, `"Invalid \\uXXXX escape"`, each formatted as
  `"<msg>: line <l> column <c> (char <p>)"`.
* the request body is modelled at the text level: one `Char` stands for one
  byte of the (ASCII) body, so `bytes.decode("utf-8")` is the identity on
  this representation.
* JSON numbers are modelled exactly: integer literals as `Int`, literals
  with a fraction or exponent as the exact rational value of the decimal
  literal (Python rounds to the nearest binary double; the claims under
  verification never depend on that rounding).  `NaN` / `Infinity` /
  `-Infinity` get their own constructors.
* `int()` applied to the `Content-Length` header value is modelled by
  `pyInt` (surrounding ASCII whitespace, an optional sign, decimal digits
  with single underscores between digits).
-/

namespace MockEndpoints

/-- JSON values as produced by Python `json.loads`: `null`/`true`/`false`,
numbers (`int` for plain integer literals, `float` otherwise), strings,
arrays, and objects.  An object keeps its key/value pairs in parse order;
The lookup semantics of Python `dict(pairs)` (later duplicate wins) is modelled
by `pyDictGet`. -/
inductive Json where
  | null
  | bool (b : Bool)
  | intNum (n : Int)
  | floatNum (q : Rat)
  | nanConst
  | infConst
  | negInfConst
  | str (s : String)
  | arr (elems : List Json)
  | obj (pairs : List (String × Json))

/-- Python `json.JSONDecodeError`: an unformatted message, the document
being parsed and the failure position.  `str()` of the exception is
computed by `errStr`. -/
structure JSONDecodeError where
  msg : String
  doc : List Char
  pos : Nat

/-- One ASCII apostrophe, as a string (used to build Python error texts). -/
def apos : String := String.mk [Char.ofNat 39]

/-- JSON whitespace, as in the `WHITESPACE` regex of `json/decoder.py`. -/
def isJsonWs (c : Char) : Bool :=
  c == ' ' || c == '\t' || c == '\n' || c == '\r'

/-- Number of leading JSON-whitespace characters of a list. -/
def wsCount : List Char → Nat
  | c :: cs => if isJsonWs c then wsCount cs + 1 else 0
  | [] => 0

/-- Index reached after skipping JSON whitespace from index `i`
(the `_w(s, i).end()` idiom of `json/decoder.py`). -/
def skipWs (s : List Char) (i : Nat) : Nat := i + wsCount (s.drop i)

/-- Character of `s` at index `i`, if any (Python `s[i]` guarded by
`IndexError`, or the `s[i:i+1]` idiom). -/
def charAt (s : List Char) (i : Nat) : Option Char := (s.drop i).head?

/-- Does the literal `lit` occur in `s` starting at index `i`?
(Python `s[idx:idx+n] == lit`.) -/
def matchLit (s : List Char) (i : Nat) (lit : List Char) : Bool :=
  lit.isPrefixOf (s.drop i)

/-- Numeric value of a decimal digit character. -/
def digitVal (c : Char) : Nat := c.toNat - 48

/-- Natural number denoted by a list of decimal digit characters. -/
def digitsToNat (ds : List Char) : Nat :=
  ds.foldl (fun a c => a * 10 + digitVal c) 0

/-- Line number of position `pos` in `doc`
(`doc.count(newline, 0, pos) + 1`, as in `JSONDecodeError.__init__`). -/
def lineOf (doc : List Char) (pos : Nat) : Nat :=
  ((doc.take pos).filter (fun c => c == '\n')).length + 1

/-- Index of the last newline of a list, if any (Python `rfind`). -/
def lastNLIndex : List Char → Option Nat
  | [] => none
  | c :: cs =>
    match lastNLIndex cs with
    | some j => some (j + 1)
    | none => if c == '\n' then some 0 else none

/-- Column of position `pos` in `doc`
(`pos - doc.rfind(newline, 0, pos)`, as in `JSONDecodeError.__init__`;
`rfind` yields `-1` when there is no newline). -/
def colOf (doc : List Char) (pos : Nat) : Nat :=
  match lastNLIndex (doc.take pos) with
  | none => pos + 1
  | some j => pos - j

/-- Python `str()` of a `JSONDecodeError`:
`"<msg>: line <l> column <c> (char <p>)"`. -/
def errStr (e : JSONDecodeError) : String :=
  e.msg ++ (": line " ++ (toString (lineOf e.doc e.pos) ++ (" column " ++
    (toString (colOf e.doc e.pos) ++ (" (char " ++ (toString e.pos ++ ")"))))))

/-- Decimal digits of `n.natAbs` with a decimal point placed `d` digits
from the right (zero-padded on the left as needed), with a sign. -/
def decimalRender (n : Int) (d : Nat) : String :=
  let ds0 := toString n.natAbs
  let ds := if d + 1 ≤ ds0.length then ds0
            else String.mk (List.replicate (d + 1 - ds0.length) '0') ++ ds0
  (if n < 0 then "-" else "") ++ ds.take (ds.length - d) ++ "." ++ ds.drop (ds.length - d)

/-- Model of Python `str()` on a float holding the rational value `q`:
integers render as `<n>.0`, values with a short terminating decimal
expansion render exactly; other values (where CPython would print the
shortest decimal rounding of the nearest binary double, which a rational
model cannot reproduce digit-for-digit) fall back to the raw rational
rendering.  The claims under verification never print such a float. -/
def ratPyStr (q : Rat) : String :=
  if q.den = 1 then toString q.num ++ ".0"
  else
    match (List.range 17).find? (fun k => (q * (10 : Rat) ^ (k + 1)).den = 1) with
    | some k => decimalRender (q * (10 : Rat) ^ (k + 1)).num (k + 1)
    | none => toString q.num ++ "/" ++ toString q.den

mutual
/-- Python `repr()` of a decoded JSON value (`None`/`True`/`False`,
numbers, quoted strings, `[...]` lists, and dicts).  String escaping
inside `repr` is simplified to plain quoting. -/
def pyRepr : Json → String
  | .null => "None"
  | .bool b => if b then "True" else "False"
  | .intNum n => toString n
  | .floatNum q => ratPyStr q
  | .nanConst => "nan"
  | .infConst => "inf"
  | .negInfConst => "-inf"
  | .str s => apos ++ s ++ apos
  | .arr xs => "[" ++ pyReprList xs ++ "]"
  | .obj kvs => "\x7b" ++ pyReprPairs kvs ++ "\x7d"

/-- Comma-separated `repr`s of list elements. -/
def pyReprList : List Json → String
  | [] => ""
  | [x] => pyRepr x
  | x :: y :: xs => pyRepr x ++ ", " ++ pyReprList (y :: xs)

/-- Comma-separated `repr`s of dict entries. -/
def pyReprPairs : List (String × Json) → String
  | [] => ""
  | [(k, v)] => apos ++ k ++ apos ++ ": " ++ pyRepr v
  | (k, v) :: p :: kvs => apos ++ k ++ apos ++ ": " ++ pyRepr v ++ ", " ++ pyReprPairs (p :: kvs)
end

/-- Python `str()` of a decoded JSON value, as interpolated into the
f-string log line of the handler: identical to `repr()` except on strings,
which print unquoted. -/
def pyStr : Json → String
  | .str s => s
  | j => pyRepr j

/-- Python type name of a decoded JSON value (as it appears in the
`AttributeError` raised by `data.get` on a non-dict). -/
def pyTypeName : Json → String
  | .null => "NoneType"
  | .bool _ => "bool"
  | .intNum _ => "int"
  | .floatNum _ => "float"
  | .nanConst => "float"
  | .infConst => "float"
  | .negInfConst => "float"
  | .str _ => "str"
  | .arr _ => "list"
  | .obj _ => "dict"

/-- Python `dict(pairs).get(k)`: the value of the last pair with key `k`,
if any (later duplicates overwrite earlier ones in `dict(pairs)`). -/
def pyDictGet (pairs : List (String × Json)) (k : String) : Option Json :=
  (pairs.reverse.find? (fun p => p.1 == k)).map (fun p => p.2)

/-- Semantic value of a matched `NUMBER_RE` occurrence: with neither a
fraction nor an exponent the integer branch (`parse_int`) applies,
otherwise the float branch (`parse_float`), modelled as the exact
rational value of the decimal literal. -/
def numberValue (neg : Bool) (ip : Nat) (frac : Option (List Char)) (ex : Option Int) : Json :=
  match frac, ex with
  | none, none => .intNum (if neg then -(ip : Int) else (ip : Int))
  | _, _ =>
    let base : Rat := (ip : Rat) + (match frac with
      | some ds => (digitsToNat ds : Rat) / (10 : Rat) ^ ds.length
      | none => 0)
    let scaled : Rat := base * (10 : Rat) ^ (ex.getD 0)
    .floatNum (if neg then -scaled else scaled)

/-- Match of `NUMBER_RE` (`(-?(?:0|[1-9]\d*))(\.\d+)?([eE][-+]?\d+)?`)
against `s` at index `i`: the decoded number and the index after the
match, or `none` when the regex does not match at `i`. -/
def matchNumber (s : List Char) (i : Nat) : Option (Json × Nat) :=
  let t := s.drop i
  let sign : Bool × List Char × Nat :=
    match t with
    | '-' :: r => (true, r, 1)
    | _ => (false, t, 0)
  match sign.2.1 with
  | [] => none
  | c :: r =>
    if c == '0' ∨ (c.isDigit ∧ c ≠ '0') then
      let ipart : Nat × List Char × Nat :=
        if c == '0' then (0, r, sign.2.2 + 1)
        else (digitsToNat (c :: r.takeWhile (fun d => d.isDigit)),
              r.dropWhile (fun d => d.isDigit),
              sign.2.2 + 1 + (r.takeWhile (fun d => d.isDigit)).length)
      let fpart : Option (List Char) × List Char × Nat :=
        match ipart.2.1 with
        | '.' :: r2 =>
          if (r2.takeWhile (fun d => d.isDigit)).isEmpty then (none, ipart.2.1, ipart.2.2)
          else (some (r2.takeWhile (fun d => d.isDigit)),
                r2.dropWhile (fun d => d.isDigit),
                ipart.2.2 + 1 + (r2.takeWhile (fun d => d.isDigit)).length)
        | _ => (none, ipart.2.1, ipart.2.2)
      let epart : Option Int × Nat :=
        match fpart.2.1 with
        | e :: r3 =>
          if e == 'e' ∨ e == 'E' then
            match r3 with
            | sg :: r4 =>
              if sg == '+' ∨ sg == '-' then
                if (r4.takeWhile (fun d => d.isDigit)).isEmpty then (none, fpart.2.2)
                else (some (if sg == '-'
                        then -(digitsToNat (r4.takeWhile (fun d => d.isDigit)) : Int)
                        else (digitsToNat (r4.takeWhile (fun d => d.isDigit)) : Int)),
                      fpart.2.2 + 2 + (r4.takeWhile (fun d => d.isDigit)).length)
              else
                if (r3.takeWhile (fun d => d.isDigit)).isEmpty then (none, fpart.2.2)
                else (some (digitsToNat (r3.takeWhile (fun d => d.isDigit)) : Int),
                      fpart.2.2 + 1 + (r3.takeWhile (fun d => d.isDigit)).length)
            | [] => (none, fpart.2.2)
          else (none, fpart.2.2)
        | [] => (none, fpart.2.2)
      some (numberValue sign.1 ipart.1 fpart.1 epart.1, i + epart.2)
    else none

/-- Value of a decimal digit character, when it is one. -/
def decDigitVal (c : Char) : Option Nat :=
  if c.isDigit then some (c.toNat - 48) else none

/-- Value of a hexadecimal digit character, when it is one. -/
def hexDigitVal (c : Char) : Option Nat :=
  if c.isDigit then some (c.toNat - 48)
  else if 97 ≤ c.toNat ∧ c.toNat ≤ 102 then some (c.toNat - 87)
  else if 65 ≤ c.toNat ∧ c.toNat ≤ 70 then some (c.toNat - 55)
  else none

/-- Digits (values given by `dv`) with single underscores allowed between
digits, continuing an already-read leading digit of accumulated value
`acc`, as accepted by Python `int(str, base)`. -/
def groupedDigits (dv : Char → Option Nat) (base : Nat) : Nat → List Char → Option Nat
  | acc, [] => some acc
  | acc, '_' :: c :: cs =>
    match dv c with
    | some v => groupedDigits dv base (acc * base + v) cs
    | none => none
  | acc, c :: cs =>
    match dv c with
    | some v => groupedDigits dv base (acc * base + v) cs
    | none => none

/-- Unsigned digit run of Python `int(str, base)`: at least one digit, no
leading or trailing underscore, single underscores between digits. -/
def unsignedPyNat (dv : Char → Option Nat) (base : Nat) : List Char → Option Nat
  | c :: cs =>
    match dv c with
    | some v => groupedDigits dv base v cs
    | none => none
  | [] => none

/-- Surrounding whitespace stripped, as Python `int()` does before
parsing (ASCII whitespace; Python also strips some further Unicode
whitespace, which no claim depends on). -/
def stripPyWs (l : List Char) : List Char :=
  ((l.dropWhile Char.isWhitespace).reverse.dropWhile Char.isWhitespace).reverse

/-- Core of Python `int(str, base)`: optional surrounding whitespace,
optional sign, digit run.  (Non-ASCII decimal digits, also accepted by
CPython, are outside the model.) -/
def pyIntCore (dv : Char → Option Nat) (base : Nat) (l : List Char) : Option Int :=
  match stripPyWs l with
  | '+' :: rest => (unsignedPyNat dv base rest).map (fun n => (n : Int))
  | '-' :: rest => (unsignedPyNat dv base rest).map (fun n => -(n : Int))
  | rest => (unsignedPyNat dv base rest).map (fun n => (n : Int))

/-- Python `repr()` of a string, simplified to plain quoting (CPython
additionally escapes special characters, which no claim depends on). -/
def pyReprStr (v : String) : String := apos ++ v ++ apos

/-- Python `int(v)` for a string argument: the parsed integer, or the
`ValueError` text `invalid literal for int() with base 10: <repr>`. -/
def pyInt (v : String) : Except String Int :=
  match pyIntCore decDigitVal 10 v.data with
  | some n => .ok n
  | none => .error ("invalid literal for int() with base 10: " ++ pyReprStr v)

/-- Python `repr()` of a single character, as interpolated (`{0!r}`) into
the error messages of the scanner: `\t` / `\n` / `\r` print symbolically, other
control characters as `\xHH`, everything else verbatim between quotes. -/
def pyCharRepr (c : Char) : String :=
  if c == '\t' then apos ++ "\\t" ++ apos
  else if c == '\n' then apos ++ "\\n" ++ apos
  else if c == '\r' then apos ++ "\\r" ++ apos
  else if c.toNat < 32 then
    apos ++ "\\x" ++
      String.mk [Char.ofNat (if c.toNat / 16 < 10 then 48 + c.toNat / 16 else 87 + c.toNat / 16),
                 Char.ofNat (if c.toNat % 16 < 10 then 48 + c.toNat % 16 else 87 + c.toNat % 16)] ++
      apos
  else apos ++ String.mk [c] ++ apos

/-- Escape table `BACKSLASH` of `json/decoder.py`. -/
def escChar (e : Char) : Option Char :=
  if e == '"' then some '"'
  else if e == '\\' then some '\\'
  else if e == '/' then some '/'
  else if e == 'b' then some (Char.ofNat 8)
  else if e == 'f' then some (Char.ofNat 12)
  else if e == 'n' then some '\n'
  else if e == 'r' then some '\r'
  else if e == 't' then some '\t'
  else none

/-- `_decode_uXXXX(s, pos)` of `json/decoder.py`, with `pos` the index of
the `u`: the four characters after `pos` are read with `int(esc, 16)`
(whose whitespace/sign/underscore liberality `pyIntCore` reproduces)
unless the second is `x`/`X`; failure (or, as an approximation, a value
`chr()` would reject) is `Invalid \uXXXX escape` at `pos`. -/
def decodeU (s : List Char) (pos : Nat) : Except JSONDecodeError Nat :=
  match (s.drop (pos + 1)).take 4 with
  | [a, b, c, d] =>
    if b == 'x' ∨ b == 'X' then .error ⟨"Invalid \\uXXXX escape", s, pos⟩
    else
      match pyIntCore hexDigitVal 16 [a, b, c, d] with
      | some n => if 0 ≤ n then .ok n.toNat else .error ⟨"Invalid \\uXXXX escape", s, pos⟩
      | none => .error ⟨"Invalid \\uXXXX escape", s, pos⟩
  | _ => .error ⟨"Invalid \\uXXXX escape", s, pos⟩

/-- `py_scanstring` of `json/decoder.py`.  `b` is the index of the opening
quote, `i` the current scan index, `acc` the decoded characters in
reverse.  Returns the decoded string and the index after the closing
quote.  Surrogate pairs combine as in CPython; a lone surrogate, not
representable in a Lean `Char`, degrades to the `Char.ofNat` default.  The
fuel argument only serves termination and exceeds any possible number of
steps at every call site. -/
def scanString (s : List Char) (b : Nat) : Nat → Nat → List Char → Except JSONDecodeError (String × Nat)
  | 0, _, _ => .error ⟨"Unterminated string starting at", s, b⟩
  | fuel + 1, i, acc =>
    match charAt s i with
    | none => .error ⟨"Unterminated string starting at", s, b⟩
    | some c =>
      if c == '"' then .ok (String.mk acc.reverse, i + 1)
      else if c == '\\' then
        match charAt s (i + 1) with
        | none => .error ⟨"Unterminated string starting at", s, b⟩
        | some e =>
          if e == 'u' then
            match decodeU s (i + 1) with
            | .error err => .error err
            | .ok uni =>
              if 0xd800 ≤ uni ∧ uni ≤ 0xdbff ∧ charAt s (i + 6) = some '\\' ∧ charAt s (i + 7) = some 'u' then
                match decodeU s (i + 7) with
                | .error err => .error err
                | .ok uni2 =>
                  if 0xdc00 ≤ uni2 ∧ uni2 ≤ 0xdfff then
                    scanString s b fuel (i + 12)
                      (Char.ofNat (0x10000 + (uni - 0xd800) * 1024 + (uni2 - 0xdc00)) :: acc)
                  else scanString s b fuel (i + 6) (Char.ofNat uni :: acc)
              else scanString s b fuel (i + 6) (Char.ofNat uni :: acc)
          else
            match escChar e with
            | some ch => scanString s b fuel (i + 2) (ch :: acc)
            | none => .error ⟨"Invalid \\escape: " ++ pyCharRepr e, s, i + 1⟩
      else if c.toNat < 32 then
        .error ⟨"Invalid control character " ++ pyCharRepr c ++ " at", s, i + 1⟩
      else scanString s b fuel (i + 1) (c :: acc)

/-- Pending parse continuations of the scanner:
`value i` is `_scan_once(s, i)`; `members i acc` is the member loop of
`JSONObject` with `i` just after the opening quote of the next key and
`acc` the pairs read so far (reversed); `elems i acc` is the element loop
of `JSONArray` with `i` at the next value. -/
inductive PTask where
  | value (i : Nat)
  | members (i : Nat) (acc : List (String × Json))
  | elems (i : Nat) (acc : List Json)

/-- Recursive scanner of `json/scanner.py` and `json/decoder.py`, made
structurally recursive on a fuel argument (every recursive call consumes
one unit; the top-level fuel of `json_loads` exceeds any possible number
of calls, so the fuel-0 branch is unreachable there).  Dispatch order,
whitespace skipping, and error messages with their positions follow
`_scan_once`, `JSONObject` and `JSONArray`. -/
def parseStep (s : List Char) : Nat → PTask → Except JSONDecodeError (Json × Nat)
  | 0, t =>
    .error ⟨"Expecting value", s, (match t with
      | .value i => i
      | .members i _ => i
      | .elems i _ => i)⟩
  | fuel + 1, .value i =>
    match charAt s i with
    | none => .error ⟨"Expecting value", s, i⟩
    | some c =>
      if c == '"' then
        (scanString s i (s.length + 1) (i + 1) []).map (fun p => (Json.str p.1, p.2))
      else if c == '\x7b' then
        -- object: empty-object lookahead, else the member loop
        match charAt s (skipWs s (i + 1)) with
        | some '\x7d' => .ok (.obj [], skipWs s (i + 1) + 1)
        | some '"' => parseStep s fuel (.members (skipWs s (i + 1) + 1) [])
        | _ => .error ⟨"Expecting property name enclosed in double quotes", s, skipWs s (i + 1)⟩
      else if c == '[' then
        -- array: empty-array lookahead, else the element loop
        match charAt s (skipWs s (i + 1)) with
        | some ']' => .ok (.arr [], skipWs s (i + 1) + 1)
        | _ => parseStep s fuel (.elems (skipWs s (i + 1)) [])
      else if matchLit s i ['n', 'u', 'l', 'l'] then .ok (.null, i + 4)
      else if matchLit s i ['t', 'r', 'u', 'e'] then .ok (.bool true, i + 4)
      else if matchLit s i ['f', 'a', 'l', 's', 'e'] then .ok (.bool false, i + 5)
      else
        match matchNumber s i with
        | some p => .ok p
        | none =>
          if matchLit s i ['N', 'a', 'N'] then .ok (.nanConst, i + 3)
          else if matchLit s i ['I', 'n', 'f', 'i', 'n', 'i', 't', 'y'] then .ok (.infConst, i + 8)
          else if matchLit s i ['-', 'I', 'n', 'f', 'i', 'n', 'i', 't', 'y'] then .ok (.negInfConst, i + 9)
          else .error ⟨"Expecting value", s, i⟩
  | fuel + 1, .members i acc =>
    match scanString s (i - 1) (s.length + 1) i [] with
    | .error err => .error err
    | .ok (key, e1) =>
      match charAt s (skipWs s e1) with
      | some ':' =>
        match parseStep s fuel (.value (skipWs s (skipWs s e1 + 1))) with
        | .error err => .error err
        | .ok (v, e4) =>
          match charAt s (skipWs s e4) with
          | some '\x7d' => .ok (.obj ((key, v) :: acc).reverse, skipWs s e4 + 1)
          | some ',' =>
            match charAt s (skipWs s (skipWs s e4 + 1)) with
            | some '"' => parseStep s fuel (.members (skipWs s (skipWs s e4 + 1) + 1) ((key, v) :: acc))
            | _ => .error ⟨"Expecting property name enclosed in double quotes", s,
                           skipWs s (skipWs s e4 + 1)⟩
          | _ => .error ⟨"Expecting " ++ apos ++ "," ++ apos ++ " delimiter", s, skipWs s e4⟩
      | _ => .error ⟨"Expecting " ++ apos ++ ":" ++ apos ++ " delimiter", s, skipWs s e1⟩
  | fuel + 1, .elems i acc =>
    match parseStep s fuel (.value i) with
    | .error err => .error err
    | .ok (v, e1) =>
      match charAt s (skipWs s e1) with
      | some ']' => .ok (.arr (v :: acc).reverse, skipWs s e1 + 1)
      | some ',' => parseStep s fuel (.elems (skipWs s (skipWs s e1 + 1)) (v :: acc))
      | _ => .error ⟨"Expecting " ++ apos ++ "," ++ apos ++ " delimiter", s, skipWs s e1⟩

/-- `json.loads` on the decoded body text (`JSONDecoder.decode`): skip
leading whitespace, scan one value, skip trailing whitespace, and reject
a non-empty remainder as `Extra data`. -/
def json_loads (s : List Char) : Except JSONDecodeError Json :=
  match parseStep s (3 * s.length + 16) (.value (skipWs s 0)) with
  | .error e => .error e
  | .ok (v, e1) =>
    if skipWs s e1 = s.length then .ok v
    else .error ⟨"Extra data", s, skipWs s e1⟩

/-!
Handler embedding.  `MockEndpointHandler.do_POST` / `do_GET` are modelled
as pure functions from their inputs (server label, current
`request_count`, `self.path`, the request headers, the readable body
stream `rfile`, and the wall-clock value `time.time()` would return) to
the ordered list of observable events of one call.
-/

/-- Observable events of one handler call, in program order:
a `print(...)` line, the `time.sleep(0.1)` call, `self.send_response`,
`self.send_header`, `self.end_headers`, a `self.wfile.write` of the
`json.dumps`-serialised record, or an exception propagating out of the
handler method (after which nothing further runs). -/
inductive Event where
  | consolePrint (line : String)
  | sleepTenthSec
  | sendResponse (status : Nat)
  | sendHeader (k v : String)
  | endHeaders
  | writeJson (body : Json)
  | raised (msg : String)

/-- Lowercased characters of a string (Python `str.lower()` as applied to
header names). -/
def lowerChars (s : String) : List Char := s.data.map Char.toLower

/-- Case-insensitive header lookup, first match
(`self.headers` is an `email.message.Message`). -/
def headersGet (hdrs : List (String × String)) (k : String) : Option String :=
  (hdrs.find? (fun p => lowerChars p.1 == lowerChars k)).map (fun p => p.2)

/-- `int(self.headers.get(content-length-key, 0))` of line 25: the header
value parsed by `int()` when present (a failure there escapes `do_POST`,
which sits outside the `try`), else the default `int(0) = 0`. -/
def contentLengthVal (hdrs : List (String × String)) : Except String Int :=
  match headersGet hdrs "Content-Length" with
  | none => .ok 0
  | some v => pyInt v

/-- `self.rfile.read(n)` of line 26: the first `n` characters of the
stream for `0 ≤ n` (exactly `n` when the stream holds that many), and the
whole remaining stream for negative `n` (Python `read` with a negative
size reads to EOF). -/
def pyRead (rfile : List Char) (n : Int) : List Char :=
  if n < 0 then rfile else rfile.take n.toNat

/-- Events of the `except Exception` branch (lines 48-54): the error
print, then `send_response(500)`, the content-type header,
`end_headers()`, and the single write of the record `{"error": str(e)}`. -/
def errorEvents (label msg : String) : List Event :=
  [ .consolePrint ("[" ++ label ++ "] Error processing request: " ++ msg),
    .sendResponse 500,
    .sendHeader "Content-Type" "application/json",
    .endHeaders,
    .writeJson (.obj [("error", .str msg)]) ]

/-- Success record of lines 36-41, field order as constructed. -/
def successResponse (label : String) (idv : Option Json) (ts : Rat) : Json :=
  .obj [ ("success", .bool true),
         ("message", .str ("Data saved successfully to " ++ label)),
         ("id", idv.getD .null),
         ("timestamp", .floatNum ts) ]

/-- Message of the `AttributeError` raised by `data.get(...)` when the
decoded body is not a dict. -/
def noGetAttrMsg (j : Json) : String :=
  apos ++ pyTypeName j ++ apos ++ " object has no attribute " ++ apos ++ "get" ++ apos

/-- Log line of line 30:
`[<label>] Received request #<count>: <str(data.get(id-key, unknown))>`. -/
def receivedLine (label : String) (count : Nat) (idLog : Json) : String :=
  "[" ++ label ++ "] Received request #" ++ toString count ++ ": " ++ pyStr idLog

/-- Events of the `try` block after a successful `json.loads` (lines
30-46): for a dict body the log line (evaluating `data.get` twice, as the
code does), the sleep, and the 200 response; for any other decoded value
`data.get` raises `AttributeError` inside the `try`, so the `except`
branch runs. -/
def tryBlockEvents (label : String) (count : Nat) (ts : Rat) (data : Json) : List Event :=
  match data with
  | .obj kvs =>
    [ .consolePrint (receivedLine label count ((pyDictGet kvs "id").getD (.str "unknown"))),
      .sleepTenthSec,
      .sendResponse 200,
      .sendHeader "Content-Type" "application/json",
      .endHeaders,
      .writeJson (successResponse label (pyDictGet kvs "id") ts) ]
  | j => errorEvents label (noGetAttrMsg j)

/-- Events following the `json.loads` call: its failure is caught by the
`except` branch, its success continues the `try` block. -/
def afterDecodeEvents (label : String) (count : Nat) (ts : Rat) :
    Except JSONDecodeError Json → List Event
  | .error e => errorEvents label (errStr e)
  | .ok data => tryBlockEvents label count ts data

/-- Result of one `do_POST` call: the new `self.request_count` and the
events of the call. -/
structure PostResult where
  request_count : Nat
  events : List Event

/-- `MockEndpointHandler.do_POST` (lines 17-54).  `self.request_count` is
incremented first (line 19); `urlparse(self.path)` (line 22) is computed
but never used; `Content-Length` is read and converted by `int` outside
the `try`, so a conversion failure escapes the method with no response
written; otherwise exactly `content_length` bytes are read and decoded,
and the `try`/`except` produces the 200 or 500 event sequence. -/
def do_POST (label : String) (count : Nat) (path : String)
    (hdrs : List (String × String)) (rfile : List Char) (ts : Rat) : PostResult :=
  let count1 := count + 1
  match contentLengthVal hdrs with
  | .error e => ⟨count1, [.raised e]⟩
  | .ok n => ⟨count1, afterDecodeEvents label count1 ts (json_loads (pyRead rfile n))⟩

/-- Health record of lines 61-65, field order as constructed. -/
def healthResponse (label : String) (ts : Rat) : Json :=
  .obj [ ("status", .str "healthy"),
         ("service", .str label),
         ("timestamp", .floatNum ts) ]

/-- `MockEndpointHandler.do_GET` (lines 56-66): unconditionally the 200
health response; `path` is in scope (`self.path`) but never read. -/
def do_GET (label : String) (path : String) (ts : Rat) : List Event :=
  [ .sendResponse 200,
    .sendHeader "Content-Type" "application/json",
    .endHeaders,
    .writeJson (healthResponse label ts) ]

/-- `MockEndpointHandler.log_message` (lines 68-70): overridden to `pass`,
so HTTP access logging emits nothing. -/
def log_message (fmt : String) (args : List String) : List Event := []

/-- One incoming request, with the data a handler call depends on. -/
inductive Request where
  | post (path : String) (hdrs : List (String × String)) (rfile : List Char) (ts : Rat)
  | get (path : String) (ts : Rat)

/-- Handler-visible state: the label bound at listener startup
(`server.server_name`, line 75) and the per-handler-instance
`request_count` (line 14). -/
structure HandlerState where
  server_label : String
  request_count : Nat

/-- `MockEndpointHandler.__init__` (lines 13-15): the counter starts at 0. -/
def initHandler (label : String) : HandlerState := ⟨label, 0⟩

/-- Dispatch of one request to `do_POST` / `do_GET`, returning the state
after the call and its events.  Neither method assigns
`self.server.server_name`, and `do_GET` touches no handler state. -/
def handleRequest (st : HandlerState) (r : Request) : HandlerState × List Event :=
  match r with
  | .post p h rf ts =>
    let res := do_POST st.server_label st.request_count p h rf ts
    (⟨st.server_label, res.request_count⟩, res.events)
  | .get p ts => (st, do_GET st.server_label p ts)

/-- Listeners started by `__main__` (lines 81-88): port 8081 labelled
`AWS-API`, port 8082 labelled `Azure-API`. -/
def startedServers : List (Nat × String) := [(8081, "AWS-API"), (8082, "Azure-API")]

/-- Label bound to a port at startup. -/
def labelOf (port : Nat) : Option String :=
  (startedServers.find? (fun p => p.1 == port)).map (fun p => p.2)

/-- Does one response field carry the right label?  The `message` field of
a success record must read `Data saved successfully to <label>`, the
`service` field of a health record must equal the label; other fields are
unconstrained. -/
def fieldLabelOk (label : String) (kv : String × Json) : Bool :=
  (if kv.1 == "message" then
      match kv.2 with
      | .str m => m == "Data saved successfully to " ++ label
      | _ => false
    else true)
  && (if kv.1 == "service" then
      match kv.2 with
      | .str m => m == label
      | _ => false
    else true)

/-- Every labelled field of a written record carries the given label. -/
def jsonLabelOk (label : String) : Json → Bool
  | .obj kvs => kvs.all (fieldLabelOk label)
  | _ => true

/-- Every labelled field written by an event carries the given label. -/
def eventLabelOk (label : String) : Event → Bool
  | .writeJson j => jsonLabelOk label j
  | _ => true

/-- Is a decoded JSON value a Python dict? -/
def jsonIsDict : Json → Bool
  | .obj _ => true
  | _ => false

/-! Theorems. -/

theorem errStr_length_pos (e : JSONDecodeError) : 0 < (errStr e).length := by
  rw [errStr, String.length_append, String.length_append]
  have h7 : (": line ").length = 7 := rfl
  omega

theorem errStr_ne_empty (e : JSONDecodeError) : errStr e ≠ "" := by
  intro h
  have hp := errStr_length_pos e
  rw [h] at hp
  exact absurd hp (by decide)

/-- C1: for every POST request whose body decodes to a JSON object
containing a field `id = x`, the handler responds with status 200 and the
success record echoing `x` with the message
`Data saved successfully to <label>`. -/
theorem post_valid_object_with_id (label : String) (count : Nat) (path : String)
    (hdrs : List (String × String)) (rfile : List Char) (ts : Rat)
    (n : Int) (kvs : List (String × Json)) (x : Json)
    (hcl : contentLengthVal hdrs = .ok n)
    (hjson : json_loads (pyRead rfile n) = .ok (Json.obj kvs))
    (hid : pyDictGet kvs "id" = some x) :
    (do_POST label count path hdrs rfile ts).events =
      [ Event.consolePrint (receivedLine label (count + 1) x),
        Event.sleepTenthSec,
        Event.sendResponse 200,
        Event.sendHeader "Content-Type" "application/json",
        Event.endHeaders,
        Event.writeJson (Json.obj
          [ ("success", Json.bool true),
            ("message", Json.str ("Data saved successfully to " ++ label)),
            ("id", x),
            ("timestamp", Json.floatNum ts) ]) ] := by
  simp [do_POST, hcl, afterDecodeEvents, hjson, tryBlockEvents, hid, successResponse]

theorem post_valid_object_with_id_witness :
    contentLengthVal [("Content-Length", "13")] = .ok 13 ∧
    json_loads (pyRead ("\x7b\"id\": \"abc\"\x7d".data) 13) = .ok (Json.obj [("id", Json.str "abc")]) ∧
    pyDictGet [("id", Json.str "abc")] "id" = some (Json.str "abc") ∧
    (do_POST "AWS-API" 0 "/save" [("Content-Length", "13")] ("\x7b\"id\": \"abc\"\x7d".data) 0).events =
      [ Event.consolePrint (receivedLine "AWS-API" (0 + 1) (Json.str "abc")),
        Event.sleepTenthSec,
        Event.sendResponse 200,
        Event.sendHeader "Content-Type" "application/json",
        Event.endHeaders,
        Event.writeJson (Json.obj
          [ ("success", Json.bool true),
            ("message", Json.str ("Data saved successfully to " ++ "AWS-API")),
            ("id", Json.str "abc"),
            ("timestamp", Json.floatNum 0) ]) ] :=
  ⟨rfl, rfl, rfl,
    post_valid_object_with_id "AWS-API" 0 "/save" [("Content-Length", "13")]
      ("\x7b\"id\": \"abc\"\x7d".data) 0 13 [("id", Json.str "abc")] (Json.str "abc") rfl rfl rfl⟩

/-- C2: for every POST request whose body fails to decode as JSON, the
whole event trace of the handler is the error print followed by exactly the
500 response writing the single-field record `{"error": str(e)}`, where
`str(e)` is non-empty; no part of the success response is written. -/
theorem post_malformed_body (label : String) (count : Nat) (path : String)
    (hdrs : List (String × String)) (rfile : List Char) (ts : Rat)
    (n : Int) (e : JSONDecodeError)
    (hcl : contentLengthVal hdrs = .ok n)
    (hjson : json_loads (pyRead rfile n) = .error e) :
    (do_POST label count path hdrs rfile ts).events =
      [ Event.consolePrint ("[" ++ label ++ "] Error processing request: " ++ errStr e),
        Event.sendResponse 500,
        Event.sendHeader "Content-Type" "application/json",
        Event.endHeaders,
        Event.writeJson (Json.obj [("error", Json.str (errStr e))]) ] ∧
    errStr e ≠ "" := by
  constructor
  · simp [do_POST, hcl, afterDecodeEvents, hjson, errorEvents]
  · exact errStr_ne_empty e

theorem post_malformed_body_witness :
    contentLengthVal [("Content-Length", "8")] = .ok 8 ∧
    json_loads (pyRead ("not-json".data) 8) = .error ⟨"Expecting value", "not-json".data, 0⟩ ∧
    ((do_POST "Azure-API" 0 "/" [("Content-Length", "8")] ("not-json".data) 0).events =
      [ Event.consolePrint ("[" ++ "Azure-API" ++ "] Error processing request: " ++
          errStr ⟨"Expecting value", "not-json".data, 0⟩),
        Event.sendResponse 500,
        Event.sendHeader "Content-Type" "application/json",
        Event.endHeaders,
        Event.writeJson (Json.obj [("error",
          Json.str (errStr ⟨"Expecting value", "not-json".data, 0⟩))]) ] ∧
      errStr ⟨"Expecting value", "not-json".data, 0⟩ ≠ "") :=
  ⟨rfl, rfl,
    post_malformed_body "Azure-API" 0 "/" [("Content-Length", "8")] ("not-json".data) 0 8
      ⟨"Expecting value", "not-json".data, 0⟩ rfl rfl⟩

/-- C3: every GET request, regardless of path, produces exactly the 200
response writing the health record; no body is parsed and no error branch
exists (the whole trace is these four events, for every path). -/
theorem get_health (label : String) (path : String) (ts : Rat) :
    do_GET label path ts =
      [ Event.sendResponse 200,
        Event.sendHeader "Content-Type" "application/json",
        Event.endHeaders,
        Event.writeJson (Json.obj
          [ ("status", Json.str "healthy"),
            ("service", Json.str label),
            ("timestamp", Json.floatNum ts) ]) ] := rfl

/-- C5: for every POST request whose body decodes to a JSON object
without an `id` field, the 200 response carries the explicit field
`id = null` (and the log line shows the `unknown` placeholder). -/
theorem post_valid_object_without_id (label : String) (count : Nat) (path : String)
    (hdrs : List (String × String)) (rfile : List Char) (ts : Rat)
    (n : Int) (kvs : List (String × Json))
    (hcl : contentLengthVal hdrs = .ok n)
    (hjson : json_loads (pyRead rfile n) = .ok (Json.obj kvs))
    (hid : pyDictGet kvs "id" = none) :
    (do_POST label count path hdrs rfile ts).events =
      [ Event.consolePrint (receivedLine label (count + 1) (Json.str "unknown")),
        Event.sleepTenthSec,
        Event.sendResponse 200,
        Event.sendHeader "Content-Type" "application/json",
        Event.endHeaders,
        Event.writeJson (Json.obj
          [ ("success", Json.bool true),
            ("message", Json.str ("Data saved successfully to " ++ label)),
            ("id", Json.null),
            ("timestamp", Json.floatNum ts) ]) ] := by
  simp [do_POST, hcl, afterDecodeEvents, hjson, tryBlockEvents, hid, successResponse]

theorem post_valid_object_without_id_witness :
    contentLengthVal [("Content-Length", "2")] = .ok 2 ∧
    json_loads (pyRead ("\x7b\x7d".data) 2) = .ok (Json.obj []) ∧
    pyDictGet [] "id" = none ∧
    (do_POST "AWS-API" 0 "/" [("Content-Length", "2")] ("\x7b\x7d".data) 0).events =
      [ Event.consolePrint (receivedLine "AWS-API" (0 + 1) (Json.str "unknown")),
        Event.sleepTenthSec,
        Event.sendResponse 200,
        Event.sendHeader "Content-Type" "application/json",
        Event.endHeaders,
        Event.writeJson (Json.obj
          [ ("success", Json.bool true),
            ("message", Json.str ("Data saved successfully to " ++ "AWS-API")),
            ("id", Json.null),
            ("timestamp", Json.floatNum 0) ]) ] :=
  ⟨rfl, rfl, rfl,
    post_valid_object_without_id "AWS-API" 0 "/" [("Content-Length", "2")]
      ("\x7b\x7d".data) 0 2 [] rfl rfl rfl⟩

/-- C8: for every POST request whose body decodes to valid JSON that is
not an object (list, number, string, boolean or null), `data.get` raises
`AttributeError` inside the `try`, so the handler produces the same 500
error trace as malformed JSON, carrying the `AttributeError` text. -/
theorem post_nonobject_json_errors (label : String) (count : Nat) (path : String)
    (hdrs : List (String × String)) (rfile : List Char) (ts : Rat)
    (n : Int) (j : Json)
    (hcl : contentLengthVal hdrs = .ok n)
    (hjson : json_loads (pyRead rfile n) = .ok j)
    (hnd : jsonIsDict j = false) :
    (do_POST label count path hdrs rfile ts).events =
      [ Event.consolePrint ("[" ++ label ++ "] Error processing request: " ++ noGetAttrMsg j),
        Event.sendResponse 500,
        Event.sendHeader "Content-Type" "application/json",
        Event.endHeaders,
        Event.writeJson (Json.obj [("error", Json.str (noGetAttrMsg j))]) ] := by
  cases j <;>
    simp only [jsonIsDict, Bool.true_eq_false] at hnd <;>
    simp [do_POST, hcl, afterDecodeEvents, hjson, tryBlockEvents, errorEvents]

theorem post_nonobject_json_errors_witness :
    contentLengthVal [("Content-Length", "6")] = .ok 6 ∧
    json_loads (pyRead ("[1, 2]".data) 6) = .ok (Json.arr [Json.intNum 1, Json.intNum 2]) ∧
    jsonIsDict (Json.arr [Json.intNum 1, Json.intNum 2]) = false ∧
    (do_POST "AWS-API" 0 "/" [("Content-Length", "6")] ("[1, 2]".data) 0).events =
      [ Event.consolePrint ("[" ++ "AWS-API" ++ "] Error processing request: " ++
          noGetAttrMsg (Json.arr [Json.intNum 1, Json.intNum 2])),
        Event.sendResponse 500,
        Event.sendHeader "Content-Type" "application/json",
        Event.endHeaders,
        Event.writeJson (Json.obj [("error",
          Json.str (noGetAttrMsg (Json.arr [Json.intNum 1, Json.intNum 2])))]) ] :=
  ⟨rfl, rfl, rfl,
    post_nonobject_json_errors "AWS-API" 0 "/" [("Content-Length", "6")] ("[1, 2]".data) 0 6
      (Json.arr [Json.intNum 1, Json.intNum 2]) rfl rfl rfl⟩

/-- C9: for every POST request whose `Content-Length` header is present
but not parseable by `int()`, the conversion raises outside the `try`, the
exception escapes `do_POST`, and no response event (no status line, no
header, no body write) is produced at all. -/
theorem post_bad_content_length (label : String) (count : Nat) (path : String)
    (hdrs : List (String × String)) (rfile : List Char) (ts : Rat)
    (v : String) (msg : String)
    (hv : headersGet hdrs "Content-Length" = some v)
    (he : pyInt v = .error msg) :
    (do_POST label count path hdrs rfile ts).events = [Event.raised msg] ∧
    ((do_POST label count path hdrs rfile ts).events.all (fun ev =>
      match ev with
      | Event.sendResponse _ => false
      | Event.sendHeader _ _ => false
      | Event.endHeaders => false
      | Event.writeJson _ => false
      | _ => true)) = true := by
  have hcl : contentLengthVal hdrs = .error msg := by
    rw [contentLengthVal, hv]
    exact he
  constructor
  · simp [do_POST, hcl]
  · simp [do_POST, hcl, List.all]

theorem post_bad_content_length_witness :
    headersGet [("Content-Length", "abc")] "Content-Length" = some "abc" ∧
    pyInt "abc" = .error ("invalid literal for int() with base 10: " ++ pyReprStr "abc") ∧
    (do_POST "AWS-API" 0 "/" [("Content-Length", "abc")] ("\x7b\x7d".data) 0).events =
      [Event.raised ("invalid literal for int() with base 10: " ++ pyReprStr "abc")] :=
  ⟨rfl, rfl,
    (post_bad_content_length "AWS-API" 0 "/" [("Content-Length", "abc")] ("\x7b\x7d".data) 0
      "abc" ("invalid literal for int() with base 10: " ++ pyReprStr "abc") rfl rfl).1⟩

/-- C10: every POST call increments the per-instance counter by exactly
one whatever its outcome (the increment precedes the body read and
decode, so failed decodes and even a failed `Content-Length` conversion
consume a value) and changes nothing else of the handler state, while a
GET call leaves the handler state exactly unchanged. -/
theorem request_count_invariants (label : String) (count : Nat) (path : String)
    (hdrs : List (String × String)) (rfile : List Char) (ts : Rat)
    (gpath : String) (gts : Rat) :
    (handleRequest ⟨label, count⟩ (Request.post path hdrs rfile ts)).1 =
      ⟨label, count + 1⟩ ∧
    (handleRequest ⟨label, count⟩ (Request.get gpath gts)).1 = ⟨label, count⟩ := by
  constructor
  · cases h : contentLengthVal hdrs <;> simp [handleRequest, do_POST, h]
  · rfl

/-- C4: port 8081 is started with label `AWS-API` and port 8082 with
`Azure-API`; for every request, the handler leaves the label unchanged
and every record it writes carries exactly the label of its listener in the
`message` text of POST successes and the `service` field of GET health
records. -/
theorem listener_labels :
    labelOf 8081 = some "AWS-API" ∧ labelOf 8082 = some "Azure-API" ∧
    ∀ (label : String) (count : Nat) (r : Request),
      (handleRequest ⟨label, count⟩ r).1.server_label = label ∧
      ((handleRequest ⟨label, count⟩ r).2.all (eventLabelOk label)) = true := by
  refine ⟨rfl, rfl, fun label count r => ?_⟩
  cases r with
  | get p ts =>
    exact ⟨rfl, by simp [handleRequest, do_GET, eventLabelOk, jsonLabelOk, healthResponse,
      fieldLabelOk]⟩
  | post p h rf ts =>
    refine ⟨rfl, ?_⟩
    cases hcl : contentLengthVal h with
    | error e => simp [handleRequest, do_POST, hcl, eventLabelOk]
    | ok n =>
      cases hj : json_loads (pyRead rf n) with
      | error e =>
        simp [handleRequest, do_POST, hcl, hj, afterDecodeEvents, errorEvents,
          eventLabelOk, jsonLabelOk, fieldLabelOk]
      | ok data =>
        cases data <;>
          simp [handleRequest, do_POST, hcl, hj, afterDecodeEvents, tryBlockEvents,
            errorEvents, successResponse, eventLabelOk, jsonLabelOk, fieldLabelOk]

/-- C6: for every POST request, the decode is applied to exactly the
`Content-Length`-many characters read from the stream: with the header
absent, `int(0) = 0` characters are read and the decode of the empty
input fails (yielding the 500 trace), and with the header present and
parsed as `n`, the events are those of decoding exactly `read(rfile, n)`,
whose length is exactly `n` when `0 ≤ n` and the stream suffices. -/
theorem post_reads_content_length (label : String) (count : Nat) (path : String)
    (hdrs : List (String × String)) (rfile : List Char) (ts : Rat) :
    (headersGet hdrs "Content-Length" = none →
      contentLengthVal hdrs = .ok 0 ∧
      pyRead rfile 0 = [] ∧
      json_loads ([] : List Char) = .error ⟨"Expecting value", [], 0⟩ ∧
      (do_POST label count path hdrs rfile ts).events =
        errorEvents label (errStr ⟨"Expecting value", [], 0⟩)) ∧
    (∀ (v : String) (n : Int),
      headersGet hdrs "Content-Length" = some v → pyInt v = .ok n →
      (do_POST label count path hdrs rfile ts).events =
        afterDecodeEvents label (count + 1) ts (json_loads (pyRead rfile n)) ∧
      (0 ≤ n → n.toNat ≤ rfile.length → (pyRead rfile n).length = n.toNat)) := by
  constructor
  · intro h
    have hcl : contentLengthVal hdrs = .ok 0 := by rw [contentLengthVal, h]
    have hrd : pyRead rfile 0 = [] := by simp [pyRead]
    refine ⟨hcl, hrd, rfl, ?_⟩
    simp [do_POST, hcl, hrd]
    rfl
  · intro v n hv hn
    have hcl : contentLengthVal hdrs = .ok n := by
      rw [contentLengthVal, hv]
      exact hn
    refine ⟨by simp [do_POST, hcl], fun h0 hlen => ?_⟩
    rw [pyRead, if_neg (by omega), List.length_take]
    omega

theorem post_reads_content_length_witness :
    (contentLengthVal ([] : List (String × String)) = .ok 0 ∧
     pyRead ([] : List Char) 0 = [] ∧
     json_loads ([] : List Char) = .error ⟨"Expecting value", [], 0⟩ ∧
     (do_POST "AWS-API" 0 "/" [] [] 0).events =
       errorEvents "AWS-API" (errStr ⟨"Expecting value", [], 0⟩)) ∧
    ((do_POST "AWS-API" 0 "/" [("Content-Length", "2")] ("42".data) 0).events =
       afterDecodeEvents "AWS-API" (0 + 1) 0 (json_loads (pyRead ("42".data) 2)) ∧
     (pyRead ("42".data) 2).length = (2 : Int).toNat) :=
  ⟨(post_reads_content_length "AWS-API" 0 "/" [] [] 0).1 rfl,
   ((post_reads_content_length "AWS-API" 0 "/" [("Content-Length", "2")] ("42".data) 0).2
       "2" 2 rfl rfl).1,
   ((post_reads_content_length "AWS-API" 0 "/" [("Content-Length", "2")] ("42".data) 0).2
       "2" 2 rfl rfl).2 (by decide) (by decide)⟩

/-- C7 counterexample: the body `[]` decodes successfully
(`json.loads` returns a list), yet the handler emits no
`[<label>] Received request #...` line at all — `data.get` inside the
f-string raises before `print` runs, so the trace is the 500 error trace
(every status it sends is 500, not 200). -/
theorem post_array_body_no_received_line :
    json_loads ("[]".data) = .ok (Json.arr []) ∧
    (do_POST "AWS-API" 0 "/" [("Content-Length", "2")] ("[]".data) 0).events =
      [ Event.consolePrint ("[" ++ "AWS-API" ++ "] Error processing request: " ++
          noGetAttrMsg (Json.arr [])),
        Event.sendResponse 500,
        Event.sendHeader "Content-Type" "application/json",
        Event.endHeaders,
        Event.writeJson (Json.obj [("error", Json.str (noGetAttrMsg (Json.arr [])))]) ] ∧
    ((do_POST "AWS-API" 0 "/" [("Content-Length", "2")] ("[]".data) 0).events.all (fun ev =>
      match ev with
      | Event.consolePrint l => !(("[AWS-API] Received request".data).isPrefixOf l.data)
      | Event.sendResponse st => st == 500
      | _ => true)) = true :=
  ⟨rfl, rfl, rfl⟩

/-- C7 (amended): on every POST whose body decodes to a JSON object, the
handler emits exactly one console line, namely
`[<label>] Received request #<n>: <id>` with `<id>` the `str()` of the
decoded id (or the `unknown` placeholder), where `n` is the per-instance
counter value after the increment of this call: the counter starts at 0 at
handler construction and grows by exactly 1 per POST; HTTP access logging
(`log_message`) emits nothing. -/
theorem post_object_logs_received (label : String) (count : Nat) (path : String)
    (hdrs : List (String × String)) (rfile : List Char) (ts : Rat)
    (n : Int) (kvs : List (String × Json))
    (hcl : contentLengthVal hdrs = .ok n)
    (hjson : json_loads (pyRead rfile n) = .ok (Json.obj kvs)) :
    ((do_POST label count path hdrs rfile ts).events.countP (fun ev =>
      match ev with
      | Event.consolePrint _ => true
      | _ => false)) = 1 ∧
    (do_POST label count path hdrs rfile ts).events.head? =
      some (Event.consolePrint
        (receivedLine label (count + 1) ((pyDictGet kvs "id").getD (Json.str "unknown")))) ∧
    (initHandler label).request_count = 0 ∧
    (do_POST label count path hdrs rfile ts).request_count = count + 1 ∧
    (∀ (fmt : String) (args : List String), log_message fmt args = []) := by
  refine ⟨?_, ?_, rfl, ?_, fun fmt args => rfl⟩
  · simp [do_POST, hcl, afterDecodeEvents, hjson, tryBlockEvents, List.countP_cons,
      List.countP_nil]
  · simp [do_POST, hcl, afterDecodeEvents, hjson, tryBlockEvents]
  · simp [do_POST, hcl]

theorem post_object_logs_received_witness :
    contentLengthVal [("Content-Length", "11")] = .ok 11 ∧
    json_loads (pyRead ("\x7b\"id\": 707\x7d".data) 11) = .ok (Json.obj [("id", Json.intNum 707)]) ∧
    ((do_POST "Azure-API" 4 "/" [("Content-Length", "11")] ("\x7b\"id\": 707\x7d".data) 0).events.countP
      (fun ev =>
        match ev with
        | Event.consolePrint _ => true
        | _ => false)) = 1 ∧
    (do_POST "Azure-API" 4 "/" [("Content-Length", "11")] ("\x7b\"id\": 707\x7d".data) 0).events.head? =
      some (Event.consolePrint (receivedLine "Azure-API" (4 + 1)
        ((pyDictGet [("id", Json.intNum 707)] "id").getD (Json.str "unknown")))) ∧
    (do_POST "Azure-API" 4 "/" [("Content-Length", "11")] ("\x7b\"id\": 707\x7d".data) 0).request_count = 4 + 1 :=
  ⟨rfl, rfl,
   (post_object_logs_received "Azure-API" 4 "/" [("Content-Length", "11")]
      ("\x7b\"id\": 707\x7d".data) 0 11 [("id", Json.intNum 707)] rfl rfl).1,
   (post_object_logs_received "Azure-API" 4 "/" [("Content-Length", "11")]
      ("\x7b\"id\": 707\x7d".data) 0 11 [("id", Json.intNum 707)] rfl rfl).2.1,
   (post_object_logs_received "Azure-API" 4 "/" [("Content-Length", "11")]
      ("\x7b\"id\": 707\x7d".data) 0 11 [("id", Json.intNum 707)] rfl rfl).2.2.2.1⟩

end MockEndpoints
